import Mathlib

/-!
# Verification of the password & account-security subsystem

Shallow embedding of the security-relevant parts of the banking demo server:
the `PasswordSecurityManager` class (strength scoring, lockout state machine,
password history, bcrypt wrapper), the fingerprint-keyed rate limiter and the
honeypot detector from the middleware, and the login route handlers.

Passwords, digests and header values are modelled as `List Char`; timestamps
are milliseconds since the epoch, modelled as `Nat`.
-/

set_option autoImplicit false

/-! ## Password strength scoring (`checkPasswordStrength`) -/

/-- JS regex `/[a-z]/` on a single character. -/
def isLowerAlpha (c : Char) : Bool :=
  decide ('a' ≤ c ∧ c ≤ 'z')

/-- JS regex `/[A-Z]/` on a single character. -/
def isUpperAlpha (c : Char) : Bool :=
  decide ('A' ≤ c ∧ c ≤ 'Z')

/-- JS regex `/[0-9]/` on a single character. -/
def isDigitChar (c : Char) : Bool :=
  decide ('0' ≤ c ∧ c ≤ '9')

/-- JS regex `/[^A-Za-z0-9]/` on a single character. -/
def isSpecialChar (c : Char) : Bool :=
  !(isLowerAlpha c || isUpperAlpha c || isDigitChar c)

/-- `/[a-z]/.test(password)` -/
def hasLower (password : List Char) : Bool := password.any isLowerAlpha

/-- `/[A-Z]/.test(password)` -/
def hasUpper (password : List Char) : Bool := password.any isUpperAlpha

/-- `/[0-9]/.test(password)` -/
def hasDigit (password : List Char) : Bool := password.any isDigitChar

/-- `/[^A-Za-z0-9]/.test(password)` -/
def hasSpecial (password : List Char) : Bool := password.any isSpecialChar

/-- The characters the ECMAScript `.` (without the `s` flag) does not match:
LF, CR, LINE SEPARATOR and PARAGRAPH SEPARATOR. -/
def isLineTerminator (c : Char) : Bool :=
  c == '\n' || c == '\r' || c == '\u2028' || c == '\u2029'

/-- JS regex `/(.)\1{2,}/.test(password)`: some character occurs at three
consecutive positions — and, because the ECMAScript dot excludes line
terminators, that character must not be one of them. -/
def hasTripleRepeat : List Char → Bool
  | a :: b :: c :: rest =>
      (!isLineTerminator a && a == b && b == c) || hasTripleRepeat (b :: c :: rest)
  | _ => false

/-- The repeat deduction as the claim words it: *any* character repeating
three or more times consecutively, line terminators included. -/
def specTripleRepeat : List Char → Bool
  | a :: b :: c :: rest => (a == b && b == c) || specTripleRepeat (b :: c :: rest)
  | _ => false

/-- The common-pattern denylist of `/123|abc|qwe|password|admin/i`. -/
def commonPatterns : List (List Char) :=
  ["123".data, "abc".data, "qwe".data, "password".data, "admin".data]

/-- `/123|abc|qwe|password|admin/i.test(password)`: case-insensitive substring
match against the denylist. -/
def hasCommonPattern (password : List Char) : Bool :=
  commonPatterns.any (fun pat => decide (pat <:+: password.map Char.toLower))

/-- `new Set(password).size`: the number of distinct characters. -/
def uniqueCharCount (password : List Char) : Nat :=
  password.dedup.length

/-- The result record of `checkPasswordStrength`. -/
structure PasswordStrengthResult where
  score : Int
  feedback : List String
  isStrong : Bool
  deriving Repr, DecidableEq

/-- `PasswordSecurityManager.checkPasswordStrength`, translated statement by
statement: the mutable `score`/`feedback` variables become a chain of `let`
bindings, one per `if` statement of the source. -/
def checkPasswordStrength (password : List Char) : PasswordStrengthResult :=
  let f0 : List String := []
  let s0 : Int := 0
  -- Length check
  let s1 := if password.length ≥ 8 then s0 + 20 else s0
  let f1 := if password.length ≥ 8 then f0 else
    f0 ++ ["Password should be at least 8 characters long"]
  let s2 := if password.length ≥ 12 then s1 + 10 else s1
  let s3 := if password.length ≥ 16 then s2 + 10 else s2
  -- Character variety checks
  let s4 := if hasLower password then s3 + 10 else s3
  let f4 := if hasLower password then f1 else
    f1 ++ ["Password should contain lowercase letters"]
  let s5 := if hasUpper password then s4 + 10 else s4
  let f5 := if hasUpper password then f4 else
    f4 ++ ["Password should contain uppercase letters"]
  let s6 := if hasDigit password then s5 + 10 else s5
  let f6 := if hasDigit password then f5 else
    f5 ++ ["Password should contain numbers"]
  let s7 := if hasSpecial password then s6 + 10 else s6
  let f7 := if hasSpecial password then f6 else
    f6 ++ ["Password should contain special characters"]
  -- Pattern checks (deduct points for weak patterns)
  let s8 := if hasTripleRepeat password then s7 - 10 else s7
  let f8 := if hasTripleRepeat password then f7 ++ ["Avoid repeating characters"] else f7
  let s9 := if hasCommonPattern password then s8 - 20 else s8
  let f9 := if hasCommonPattern password then
    f8 ++ ["Avoid common patterns or dictionary words"] else f8
  -- Entropy check
  let uniqueChars := uniqueCharCount password
  let s10 := if uniqueChars < 4 then s9 - 10 else s9
  let f10 := if uniqueChars < 4 then f9 ++ ["Use more diverse characters"] else f9
  -- Bonus for very strong passwords
  let s11 := if password.length ≥ 16 ∧ uniqueChars ≥ 10 then s10 + 10 else s10
  -- Additional bonus for exceptional passwords
  let s12 := if password.length ≥ 20 ∧ uniqueChars ≥ 15 then s11 + 10 else s11
  -- Ensure score is between 0 and 100
  let score := max 0 (min 100 s12)
  let isStrong := decide (score ≥ 70)
  let summary :=
    if score < 30 then "Password is very weak"
    else if score < 50 then "Password is weak"
    else if score < 70 then "Password is moderate"
    else if score < 90 then "Password is strong"
    else if score < 100 then "Password is very strong"
    else "Password is perfect! Maximum security achieved"
  ⟨score, summary :: f10, isStrong⟩

/-- The additive scheme exactly as the spec words it: one independent signed
term per check, summed. -/
def specAdditiveScore (password : List Char) : Int :=
  (if password.length ≥ 8 then (20 : Int) else 0)
  + (if password.length ≥ 12 then 10 else 0)
  + (if password.length ≥ 16 then 10 else 0)
  + (if hasLower password then 10 else 0)
  + (if hasUpper password then 10 else 0)
  + (if hasDigit password then 10 else 0)
  + (if hasSpecial password then 10 else 0)
  - (if specTripleRepeat password then 10 else 0)
  - (if hasCommonPattern password then 20 else 0)
  - (if uniqueCharCount password < 4 then 10 else 0)
  + (if password.length ≥ 16 ∧ uniqueCharCount password ≥ 10 then 10 else 0)
  + (if password.length ≥ 20 ∧ uniqueCharCount password ≥ 15 then 10 else 0)

/-- The spec's additive score clamped to `[0, 100]`. -/
def specClampedScore (password : List Char) : Int :=
  max 0 (min 100 (specAdditiveScore password))

/-- The additive scheme amended only in its repeat deduction: the deduction
applies exactly when the code's dot-based repeat regex can match, i.e. when
the thrice-repeated character is not a line terminator. -/
def amendedAdditiveScore (password : List Char) : Int :=
  (if password.length ≥ 8 then (20 : Int) else 0)
  + (if password.length ≥ 12 then 10 else 0)
  + (if password.length ≥ 16 then 10 else 0)
  + (if hasLower password then 10 else 0)
  + (if hasUpper password then 10 else 0)
  + (if hasDigit password then 10 else 0)
  + (if hasSpecial password then 10 else 0)
  - (if hasTripleRepeat password then 10 else 0)
  - (if hasCommonPattern password then 20 else 0)
  - (if uniqueCharCount password < 4 then 10 else 0)
  + (if password.length ≥ 16 ∧ uniqueCharCount password ≥ 10 then 10 else 0)
  + (if password.length ≥ 20 ∧ uniqueCharCount password ≥ 15 then 10 else 0)

/-- The amended additive score clamped to `[0, 100]`. -/
def amendedClampedScore (password : List Char) : Int :=
  max 0 (min 100 (amendedAdditiveScore password))

/-! ## Account lockout state machine -/

/-- `maxFailedAttempts` of `PasswordSecurityManager`. -/
def maxFailedAttempts : Nat := 5

/-- `lockoutDuration` of `PasswordSecurityManager`: 15 minutes in ms. -/
def lockoutDuration : Nat := 15 * 60 * 1000

/-- The `AccountLockoutInfo` record stored on each user. -/
structure AccountLockoutInfo where
  failedAttempts : Nat
  lockoutUntil : Option Nat
  lastAttempt : Nat
  deriving Repr, DecidableEq

/-- `PasswordSecurityManager.isAccountLocked`, with the implicit `new Date()`
made an explicit `now` parameter. -/
def isAccountLocked (now : Nat) (lockoutInfo : AccountLockoutInfo) : Bool :=
  match lockoutInfo.lockoutUntil with
  | none => false
  | some t => decide (now < t)

/-- `PasswordSecurityManager.recordFailedAttempt`. -/
def recordFailedAttempt (now : Nat) (lockoutInfo : AccountLockoutInfo) :
    AccountLockoutInfo :=
  let failedAttempts := lockoutInfo.failedAttempts + 1
  let lockoutUntil : Option Nat :=
    if failedAttempts ≥ maxFailedAttempts then some (now + lockoutDuration) else none
  ⟨failedAttempts, lockoutUntil, now⟩

/-- `PasswordSecurityManager.resetFailedAttempts`. -/
def resetFailedAttempts (now : Nat) (_lockoutInfo : AccountLockoutInfo) :
    AccountLockoutInfo :=
  ⟨0, none, now⟩

/-- `PasswordSecurityManager.getLockoutTimeRemaining` (ms, clamped at 0). -/
def getLockoutTimeRemaining (now : Nat) (lockoutInfo : AccountLockoutInfo) : Nat :=
  match lockoutInfo.lockoutUntil with
  | none => 0
  | some t => t - now

/-- The lockout state a fresh account starts from (`User` model default). -/
def initialLockoutInfo (createdAt : Nat) : AccountLockoutInfo :=
  ⟨0, none, createdAt⟩

/-- Fold `recordFailedAttempt` over a list of attempt timestamps,
earliest first. -/
def recordFailures (times : List Nat) (st : AccountLockoutInfo) : AccountLockoutInfo :=
  times.foldl (fun acc t => recordFailedAttempt t acc) st

/-! ## The login route handlers (`src/server/src/routes/auth.ts`)

The handlers are modelled from the point where input validation and the user
lookup have resolved: the database lookup result is an `Option User`, and the
outcome of the external bcrypt comparison is passed in as the oracle
`verifyResult` (`ok` in the source).  Each handler returns its HTTP response
together with whether it reached password verification and the lockout record
it wrote back to the database (`none` when it performed no such write). -/

/-- A stored user, as far as the login handlers consult it. -/
structure User where
  passwordHash : List Char
  lockoutInfo : AccountLockoutInfo
  deriving Repr, DecidableEq

/-- The responses the login handlers can produce. -/
inductive LoginResponse where
  /-- 401 `Invalid credentials`. -/
  | invalidCredentials
  /-- 423 before verification, with `lockoutMinutesRemaining`. -/
  | locked (minutesRemaining : Nat)
  /-- 423 right after the failed attempt that locked the account
  (the source hard-codes `lockoutMinutesRemaining: 15`). -/
  | lockedAfterFailure
  /-- 200 with the session regenerated. -/
  | success
  deriving Repr, DecidableEq

/-- What a login handler did: its response, whether it invoked
`verifyPassword`, and the lockout record it persisted, if any. -/
structure LoginOutcome where
  response : LoginResponse
  verifyAttempted : Bool
  lockoutWrite : Option AccountLockoutInfo
  deriving Repr, DecidableEq

/-- `Math.ceil(timeRemaining / (1000 * 60))` on a nonnegative ms amount. -/
def ceilMinutes (ms : Nat) : Nat := (ms + 59999) / 60000

/-- The `POST /login` handler of `auth.ts`, from the successful user lookup
onward. -/
def loginHandler (now : Nat) (userLookup : Option User) (verifyResult : Bool) :
    LoginOutcome :=
  match userLookup with
  | none => ⟨.invalidCredentials, false, none⟩
  | some user =>
    if isAccountLocked now user.lockoutInfo then
      let timeRemaining := getLockoutTimeRemaining now user.lockoutInfo
      ⟨.locked (ceilMinutes timeRemaining), false, none⟩
    else if !verifyResult then
      let updatedLockoutInfo := recordFailedAttempt now user.lockoutInfo
      if isAccountLocked now updatedLockoutInfo then
        ⟨.lockedAfterFailure, true, some updatedLockoutInfo⟩
      else
        ⟨.invalidCredentials, true, some updatedLockoutInfo⟩
    else
      ⟨.success, true, some (resetFailedAttempts now user.lockoutInfo)⟩

/-- The `POST /employee/login` handler of `auth.ts`, from the successful user
lookup onward: verify, then session setup — no lockout logic at all. -/
def employeeLoginHandler (userLookup : Option User) (verifyResult : Bool) :
    LoginOutcome :=
  match userLookup with
  | none => ⟨.invalidCredentials, false, none⟩
  | some _ =>
    if !verifyResult then ⟨.invalidCredentials, true, none⟩
    else ⟨.success, true, none⟩

/-! ## Fingerprint-keyed rate limiter (`enhancedRateLimit` in the middleware) -/

/-- The per-fingerprint window record `{ count, resetTime }`. -/
structure RateEntry where
  count : Nat
  resetTime : Nat
  deriving Repr, DecidableEq

/-- What the middleware does with one request: call `next()` or send 429. -/
inductive RateDecision where
  | allow
  | deny (retryAfter : Nat)
  deriving Repr, DecidableEq

/-- `windowMs = 15 * 60 * 1000` of `enhancedRateLimit`. -/
def rateWindowMs : Nat := 15 * 60 * 1000

/-- `maxRequests = 100` of `enhancedRateLimit`. -/
def rateMaxRequests : Nat := 100

/-- `Math.ceil(ms / 1000)` on a nonnegative ms amount. -/
def ceilSeconds (ms : Nat) : Nat := (ms + 999) / 1000

/-- The body of the closure returned by `enhancedRateLimit`, for a single
request: takes the current entry stored under the request's fingerprint key
and returns the decision together with the entry left in the map. -/
def enhancedRateLimitCheck (now : Nat) (current : Option RateEntry) :
    RateDecision × RateEntry :=
  match current with
  | none => (.allow, ⟨1, now + rateWindowMs⟩)
  | some cur =>
    if now > cur.resetTime then
      (.allow, ⟨1, now + rateWindowMs⟩)
    else if cur.count ≥ rateMaxRequests then
      (.deny (ceilSeconds (cur.resetTime - now)), cur)
    else
      (.allow, ⟨cur.count + 1, cur.resetTime⟩)

/-- Run `enhancedRateLimitCheck` over a sequence of request times for one
fixed fingerprint key, collecting the decisions and the final stored entry. -/
def rateRunWithResults (times : List Nat) (st : Option RateEntry) :
    List RateDecision × Option RateEntry :=
  match times with
  | [] => ([], st)
  | t :: rest =>
    let step := enhancedRateLimitCheck t st
    let tail := rateRunWithResults rest (some step.2)
    (step.1 :: tail.1, tail.2)

/-! ## Honeypot detector (`checkHoneypotFields` in the middleware)

Request bodies are parsed JSON, so a field value can be a string, a number, a
boolean or `null`; the source guards each field with JS truthiness
(`body[field] && ...`) before stringifying it. -/

/-- A JSON value as it appears in `req.body`. -/
inductive JsValue where
  | str (s : String)
  | num (n : Int)
  | jsBool (b : Bool)
  | null
  deriving Repr, DecidableEq

/-- JS truthiness of a `JsValue`. -/
def truthy : JsValue → Bool
  | .str s => decide (s ≠ "")
  | .num n => decide (n ≠ 0)
  | .jsBool b => b
  | .null => false

/-- JS `value.toString()` on a `JsValue`. -/
def jsToString : JsValue → String
  | .str s => s
  | .num n => toString n
  | .jsBool b => if b then "true" else "false"
  | .null => "null"

/-- JS `.trim()`: strip leading and trailing whitespace. -/
def jsTrim (s : String) : String :=
  ⟨((s.data.dropWhile Char.isWhitespace).reverse.dropWhile Char.isWhitespace).reverse⟩

/-- A request body: field names with their JSON values. -/
def RequestBody := List (String × JsValue)

/-- JS property lookup `body[field]` (absent fields read as `undefined`,
which is falsy, so absence is reported as `none`). -/
def lookupField (body : RequestBody) (field : String) : Option JsValue :=
  (List.find? (fun entry => entry.1 == field) body).map (fun entry => entry.2)

/-- The `HONEYPOT_FIELDS` denylist, verbatim from the middleware (including
its duplicated `website_url` entry). -/
def HONEYPOT_FIELDS : List String :=
  ["website", "url", "homepage", "home_page", "website_url",
   "email_confirm", "email_confirmation", "email_verify",
   "phone_confirm", "phone_confirmation",
   "address_confirm", "address_confirmation",
   "captcha", "recaptcha", "hcaptcha",
   "bot_check", "human_check", "spam_check",
   "timestamp", "time_check", "delay",
   "company", "company_name", "business_name",
   "website_url", "personal_website", "blog_url",
   "social_media", "facebook", "twitter", "instagram",
   "linkedin", "github", "portfolio", "cv", "resume"]

/-- `checkHoneypotFields`: a honeypot field triggers when it is present,
truthy, and its string form is non-empty after trimming. -/
def checkHoneypotFields (body : RequestBody) : Bool :=
  HONEYPOT_FIELDS.any (fun field =>
    match lookupField body field with
    | some v => truthy v && decide (jsTrim (jsToString v) ≠ "")
    | none => false)

/-- The trigger condition exactly as the claim words it: some denylist field
is present with a value whose string form is non-empty after trimming (no
truthiness guard). -/
def claimTriggered (body : RequestBody) : Bool :=
  HONEYPOT_FIELDS.any (fun field =>
    match lookupField body field with
    | some v => decide (jsTrim (jsToString v) ≠ "")
    | none => false)

/-! ## Password history (`addToPasswordHistory`) -/

/-- `maxPasswordHistory` of `PasswordSecurityManager`. -/
def maxPasswordHistory : Nat := 5

/-- One entry of the stored password history. -/
structure PasswordHistoryEntry where
  passwordHash : List Char
  createdAt : Nat
  deriving Repr, DecidableEq

/-- JS `arr.slice(-n)` for `n > 0`: the last `min n arr.length` elements. -/
def sliceLast {α : Type} (n : Nat) (l : List α) : List α :=
  l.drop (l.length - n)

/-! ## bcrypt wrapper (`hashPassword` / `verifyPassword`)

The bcrypt primitive itself is the external `bcrypt` npm package, not code of
this repository, so it is idealized here; the pepper handling and the
catch-and-return-false of `verifyPassword` are translated from the source. -/

/-- Modelled from the spec: the external bcrypt primitive's digest format.
§4.1 requires only a salted, collision-free digest that `compare` can check,
so the model stores the hashed input recoverably after the standard
`$2b$12$` header and the 22-character salt; collision freedom is then literal
injectivity. -/
def bcryptHash (salt input : List Char) : List Char :=
  "$2b$12$".data ++ salt ++ input

/-- Modelled from the spec: the external bcrypt primitive's comparison. It
rejects digests that do not carry a well-formed header (raising an error,
as `bcrypt.compare` does on malformed digests), and otherwise reports whether
the digest's payload was produced from the candidate input. -/
def bcryptCompare (input digest : List Char) : Except String Bool :=
  if digest.take 7 = "$2b$12$".data ∧ 22 ≤ (digest.drop 7).length then
    .ok (((digest.drop 7).drop 22) == input)
  else
    .error "Not a valid BCrypt hash."

/-- `PasswordSecurityManager.hashPassword`: append the pepper, then hash. -/
def hashPassword (pepper salt password : List Char) : List Char :=
  bcryptHash salt (password ++ pepper)

/-- `PasswordSecurityManager.verifyPassword`: append the pepper, compare, and
turn any error from the primitive into `false` (the `try`/`catch`). -/
def verifyPassword (pepper password hash : List Char) : Bool :=
  match bcryptCompare (password ++ pepper) hash with
  | .ok b => b
  | .error _ => false

/-- `PasswordSecurityManager.addToPasswordHistory`: hash the new password,
append the entry, keep the last `maxPasswordHistory` entries. -/
def addToPasswordHistory (pepper salt : List Char) (now : Nat)
    (password : List Char) (existingHistory : List PasswordHistoryEntry) :
    List PasswordHistoryEntry :=
  let hash := hashPassword pepper salt password
  let newEntry : PasswordHistoryEntry := ⟨hash, now⟩
  sliceLast maxPasswordHistory (existingHistory ++ [newEntry])

/-! ## Helper lemmas -/

theorem ite_add_right (c : Prop) [Decidable c] (x a : Int) :
    (if c then x + a else x) = x + (if c then a else 0) := by
  split <;> simp

theorem ite_sub_right (c : Prop) [Decidable c] (x a : Int) :
    (if c then x - a else x) = x - (if c then a else 0) := by
  split <;> simp

/-- Five failed attempts from the initial state produce the counter 5 and a
lockout expiring 15 minutes after the fifth attempt, whatever the attempt
times were. -/
theorem recordFailures_five (t0 t1 t2 t3 t4 t5 : Nat) :
    recordFailures [t1, t2, t3, t4, t5] (initialLockoutInfo t0)
      = ⟨5, some (t5 + lockoutDuration), t5⟩ := by
  simp [recordFailures, recordFailedAttempt, initialLockoutInfo, maxFailedAttempts]

/-- While every request of a run stays at or before the stored `resetTime`
and the counter stays within the limit, every request is allowed and the
counter advances by the number of requests. -/
theorem rateRun_inside : ∀ (ts : List Nat) (c r : Nat),
    (∀ n ∈ ts, n ≤ r) → c + ts.length ≤ rateMaxRequests →
    rateRunWithResults ts (some ⟨c, r⟩)
      = (ts.map (fun _ => RateDecision.allow), some ⟨c + ts.length, r⟩) := by
  intro ts
  induction ts with
  | nil => intro c r _ _; simp [rateRunWithResults]
  | cons t rest ih =>
    intro c r hmem hcount
    simp only [List.length_cons, rateMaxRequests] at hcount
    have h1 : ¬ (t > r) := Nat.not_lt.mpr (hmem t (by simp))
    have h2 : ¬ (c ≥ rateMaxRequests) := by
      simp only [rateMaxRequests]
      omega
    have hrec := ih (c + 1) r (fun n hn => hmem n (by simp [hn]))
      (by simp only [rateMaxRequests]; omega)
    simp [rateRunWithResults, enhancedRateLimitCheck, h1, h2, hrec]
    omega

/-- Comparing against a digest produced by the modelled primitive succeeds
and reports exactly whether the hashed payload equals the candidate. -/
theorem bcryptCompare_hash (salt payload input : List Char)
    (hsalt : salt.length = 22) :
    bcryptCompare input (bcryptHash salt payload) = .ok (payload == input) := by
  unfold bcryptCompare bcryptHash
  rw [List.append_assoc]
  have h7 : ("$2b$12$".data ++ (salt ++ payload)).take 7 = "$2b$12$".data := by
    rw [show 7 = ("$2b$12$".data).length from rfl, List.take_left]
  have hdrop : ("$2b$12$".data ++ (salt ++ payload)).drop 7 = salt ++ payload := by
    rw [show 7 = ("$2b$12$".data).length from rfl, List.drop_left]
  rw [if_pos]
  · rw [hdrop, ← hsalt, List.drop_left]
  · refine ⟨h7, ?_⟩
    rw [hdrop]
    simp [hsalt]

/-! ## Claim theorems -/

/-- Counterexample to claim C1: at the password of eight LF characters the
code scores 20 — the ECMAScript dot of `/(.)\1{2,}/` does not match line
terminators, so the repeat deduction never fires — whereas the claim's
additive scheme deducts 10 for the eightfold-repeated newline and yields 10,
so the claimed score equality fails. -/
theorem checkPasswordStrength_newline_cex :
    (checkPasswordStrength (List.replicate 8 '\n')).score = 20 ∧
    specClampedScore (List.replicate 8 '\n') = 10 ∧
    (checkPasswordStrength (List.replicate 8 '\n')).score
      ≠ specClampedScore (List.replicate 8 '\n') := by
  refine ⟨?_, ?_, ?_⟩ <;> decide

/-- Claim C1 as amended: for every password, `checkPasswordStrength` returns
exactly the clamped sum of the additive scheme whose repeat deduction applies
only when the thrice-repeated character is not a line terminator (the other
terms unchanged), and `isStrong` holds iff that clamped score is at
least 70. -/
theorem checkPasswordStrength_matches_amended_spec (p : List Char) :
    (checkPasswordStrength p).score = amendedClampedScore p ∧
    ((checkPasswordStrength p).isStrong = true ↔ 70 ≤ amendedClampedScore p) := by
  have hscore : (checkPasswordStrength p).score = amendedClampedScore p := by
    simp only [checkPasswordStrength, amendedClampedScore, amendedAdditiveScore,
      ite_add_right, ite_sub_right]
    ring_nf
  refine ⟨hscore, ?_⟩
  have hstrong : (checkPasswordStrength p).isStrong
      = decide (70 ≤ (checkPasswordStrength p).score) := rfl
  rw [hstrong, hscore]
  exact decide_eq_true_iff

/-- Claim C2: after five failed attempts the lockout is in force until 15
minutes past the fifth failure, and a login before that expiry — whatever the
password-verification oracle would say — gets the 423 locked response with the
remaining minutes, never invokes verification, and is not a success. -/
theorem loginHandler_locked_rejects_correct_password
    (t0 t1 t2 t3 t4 t5 now : Nat) (passwordHash : List Char)
    (verifyResult : Bool) (h : now < t5 + lockoutDuration) :
    loginHandler now
        (some ⟨passwordHash, recordFailures [t1, t2, t3, t4, t5] (initialLockoutInfo t0)⟩)
        verifyResult
      = ⟨.locked (ceilMinutes (t5 + lockoutDuration - now)), false, none⟩ ∧
    (loginHandler now
        (some ⟨passwordHash, recordFailures [t1, t2, t3, t4, t5] (initialLockoutInfo t0)⟩)
        verifyResult).response ≠ .success := by
  rw [recordFailures_five]
  constructor
  · simp [loginHandler, isAccountLocked, h, getLockoutTimeRemaining]
  · simp [loginHandler, isAccountLocked, h]

/-- Witness for C2: a concrete locked account rejects a correct password. -/
theorem loginHandler_locked_rejects_correct_password_witness :
    loginHandler 100
        (some ⟨['a'], recordFailures [1, 2, 3, 4, 5] (initialLockoutInfo 0)⟩) true
      = ⟨.locked (ceilMinutes (5 + lockoutDuration - 100)), false, none⟩ ∧
    (loginHandler 100
        (some ⟨['a'], recordFailures [1, 2, 3, 4, 5] (initialLockoutInfo 0)⟩)
        true).response ≠ .success :=
  loginHandler_locked_rejects_correct_password 0 1 2 3 4 5 100 ['a'] true (by decide)

/-- Claim C3: exactly five `recordFailedAttempt` applications starting from
the open state set `lockoutUntil` to the fifth failure time plus 15 minutes,
and `isAccountLocked` is true at any instant strictly before that expiry. -/
theorem recordFailedAttempt_five_locks (t0 t1 t2 t3 t4 t5 now : Nat)
    (h : now < t5 + lockoutDuration) :
    (recordFailures [t1, t2, t3, t4, t5] (initialLockoutInfo t0)).lockoutUntil
        = some (t5 + lockoutDuration) ∧
    isAccountLocked now (recordFailures [t1, t2, t3, t4, t5] (initialLockoutInfo t0))
        = true := by
  rw [recordFailures_five]
  exact ⟨rfl, by simp [isAccountLocked, h]⟩

/-- Witness for C3: concrete attempt times and a concrete pre-expiry instant. -/
theorem recordFailedAttempt_five_locks_witness :
    (recordFailures [1, 2, 3, 4, 5] (initialLockoutInfo 0)).lockoutUntil
        = some (5 + lockoutDuration) ∧
    isAccountLocked 100 (recordFailures [1, 2, 3, 4, 5] (initialLockoutInfo 0))
        = true :=
  recordFailedAttempt_five_locks 0 1 2 3 4 5 100 (by decide)

/-- Counterexample to claim C4: a concrete account locked until t=1000000,
hit at t=500000 with a correct password. The handler answers 423 and persists
nothing — in particular it does not persist the incremented counter the claim
asserts — so the attempt is rejected before any increment. -/
theorem loginHandler_locked_no_increment_cex :
    isAccountLocked 500000 ⟨5, some 1000000, 0⟩ = true ∧
    (loginHandler 500000 (some ⟨['p'], ⟨5, some 1000000, 0⟩⟩) true).lockoutWrite
      = none ∧
    (loginHandler 500000 (some ⟨['p'], ⟨5, some 1000000, 0⟩⟩) true).lockoutWrite
      ≠ some (recordFailedAttempt 500000 ⟨5, some 1000000, 0⟩) ∧
    (loginHandler 500000 (some ⟨['p'], ⟨5, some 1000000, 0⟩⟩) true).response
      = .locked 9 := by
  decide

/-- Claim C4 as amended: a login attempt on an already-locked account is
rejected with the 423 response before password verification and before any
counter update — the handler persists no lockout record — while
`recordFailedAttempt` itself, whenever the handler does invoke it, increments
the counter unconditionally. -/
theorem loginHandler_locked_skips_increment (now : Nat) (user : User)
    (verifyResult : Bool) (h : isAccountLocked now user.lockoutInfo = true) :
    (loginHandler now (some user) verifyResult).lockoutWrite = none ∧
    (loginHandler now (some user) verifyResult).verifyAttempted = false ∧
    (loginHandler now (some user) verifyResult).response
      = .locked (ceilMinutes (getLockoutTimeRemaining now user.lockoutInfo)) ∧
    ∀ (t : Nat) (info : AccountLockoutInfo),
      (recordFailedAttempt t info).failedAttempts = info.failedAttempts + 1 := by
  simp [loginHandler, h, recordFailedAttempt]

/-- Witness for the amended C4. -/
theorem loginHandler_locked_skips_increment_witness :
    (loginHandler 500000 (some ⟨['p'], ⟨5, some 1000000, 0⟩⟩) true).lockoutWrite
      = none ∧
    (loginHandler 500000 (some ⟨['p'], ⟨5, some 1000000, 0⟩⟩) true).verifyAttempted
      = false ∧
    (loginHandler 500000 (some ⟨['p'], ⟨5, some 1000000, 0⟩⟩) true).response
      = .locked (ceilMinutes (getLockoutTimeRemaining 500000 ⟨5, some 1000000, 0⟩)) ∧
    ∀ (t : Nat) (info : AccountLockoutInfo),
      (recordFailedAttempt t info).failedAttempts = info.failedAttempts + 1 :=
  loginHandler_locked_skips_increment 500000 ⟨['p'], ⟨5, some 1000000, 0⟩⟩ true
    (by decide)

/-- Claim C5: with window 15 min and max 100, the first check opens a window;
the next 99 checks inside it are all allowed, leaving the counter at 100; a
101st check strictly inside the window is denied with a strictly positive
`retryAfter` equal to the (rounded-up) seconds until `resetTime`; and a check
after the window has elapsed is allowed and starts a fresh window with
count 1. -/
theorem enhancedRateLimit_window_behavior (t : Nat) (ts : List Nat)
    (n101 m : Nat) (hlen : ts.length = 99)
    (hin : ∀ n ∈ ts, n ≤ t + rateWindowMs)
    (h101 : n101 < t + rateWindowMs)
    (hm : t + rateWindowMs < m) :
    enhancedRateLimitCheck t none = (.allow, ⟨1, t + rateWindowMs⟩) ∧
    rateRunWithResults ts (some ⟨1, t + rateWindowMs⟩)
      = (ts.map (fun _ => RateDecision.allow), some ⟨100, t + rateWindowMs⟩) ∧
    (enhancedRateLimitCheck n101 (some ⟨100, t + rateWindowMs⟩)).1
      = .deny (ceilSeconds (t + rateWindowMs - n101)) ∧
    0 < ceilSeconds (t + rateWindowMs - n101) ∧
    enhancedRateLimitCheck m (some ⟨100, t + rateWindowMs⟩)
      = (.allow, ⟨1, m + rateWindowMs⟩) := by
  refine ⟨rfl, ?_, ?_, ?_, ?_⟩
  · have := rateRun_inside ts 1 (t + rateWindowMs) hin
      (by simp [hlen, rateMaxRequests])
    simpa [hlen] using this
  · simp [enhancedRateLimitCheck, rateMaxRequests, Nat.not_lt.mpr (Nat.le_of_lt h101)]
  · simp only [ceilSeconds]
    omega
  · simp [enhancedRateLimitCheck, hm]

/-- Witness for C5: 101 checks at concrete times inside one window. -/
theorem enhancedRateLimit_window_behavior_witness :
    enhancedRateLimitCheck 0 none = (.allow, ⟨1, 0 + rateWindowMs⟩) ∧
    rateRunWithResults (List.replicate 99 1) (some ⟨1, 0 + rateWindowMs⟩)
      = ((List.replicate 99 1).map (fun _ => RateDecision.allow),
          some ⟨100, 0 + rateWindowMs⟩) ∧
    (enhancedRateLimitCheck 2 (some ⟨100, 0 + rateWindowMs⟩)).1
      = .deny (ceilSeconds (0 + rateWindowMs - 2)) ∧
    0 < ceilSeconds (0 + rateWindowMs - 2) ∧
    enhancedRateLimitCheck (rateWindowMs + 1) (some ⟨100, 0 + rateWindowMs⟩)
      = (.allow, ⟨1, rateWindowMs + 1 + rateWindowMs⟩) :=
  enhancedRateLimit_window_behavior 0 (List.replicate 99 1) 2 (rateWindowMs + 1)
    (by simp) (by simp [rateWindowMs]) (by decide) (by decide)

/-- Counterexample to claim C6: the body `{website: 0}` carries a denylist
field whose string form `"0"` is non-empty after trimming, yet
`checkHoneypotFields` is not triggered, because JS truthiness filters the
falsy value `0` out before stringification. -/
theorem checkHoneypotFields_falsy_cex :
    checkHoneypotFields [("website", JsValue.num 0)] = false ∧
    claimTriggered [("website", JsValue.num 0)] = true := by
  constructor <;> decide

/-- Claim C6 as amended: `checkHoneypotFields` is true iff some denylist
field is present with a truthy value whose string form is non-empty after
trimming; in particular `{website: "http://x.com"}` triggers it and
`{website: ""}` does not. -/
theorem checkHoneypotFields_truthy_iff (body : RequestBody) :
    (checkHoneypotFields body = true ↔
      ∃ f ∈ HONEYPOT_FIELDS, ∃ v, lookupField body f = some v ∧
        truthy v = true ∧ jsTrim (jsToString v) ≠ "") ∧
    checkHoneypotFields [("website", JsValue.str "http://x.com")] = true ∧
    checkHoneypotFields [("website", JsValue.str "")] = false := by
  refine ⟨?_, by decide, by decide⟩
  rw [checkHoneypotFields, List.any_eq_true]
  constructor
  · rintro ⟨f, hf, hmatch⟩
    cases hcase : lookupField body f with
    | none => rw [hcase] at hmatch; simp at hmatch
    | some v =>
      rw [hcase] at hmatch
      simp at hmatch
      exact ⟨f, hf, v, hcase, hmatch.1, hmatch.2⟩
  · rintro ⟨f, hf, v, hv, htr, hne⟩
    exact ⟨f, hf, by rw [hv]; simp [htr, hne]⟩

/-- Claim C7: appending to the password history always yields at most five
entries — exactly `min (n+1) 5` — that form a suffix of the old history plus
the new entry (most recent last, the new entry last), and appending to a
five-entry history evicts precisely the oldest entry. -/
theorem addToPasswordHistory_bounded_fifo (pepper salt : List Char) (now : Nat)
    (password : List Char) (history : List PasswordHistoryEntry) :
    (addToPasswordHistory pepper salt now password history).length ≤ 5 ∧
    (addToPasswordHistory pepper salt now password history).length
      = min (history.length + 1) 5 ∧
    addToPasswordHistory pepper salt now password history
      <:+ history ++ [⟨hashPassword pepper salt password, now⟩] ∧
    (addToPasswordHistory pepper salt now password history).getLast?
      = some ⟨hashPassword pepper salt password, now⟩ ∧
    (history.length = 5 →
      addToPasswordHistory pepper salt now password history
        = history.tail ++ [⟨hashPassword pepper salt password, now⟩]) := by
  simp only [addToPasswordHistory, sliceLast, maxPasswordHistory]
  set e : PasswordHistoryEntry := ⟨hashPassword pepper salt password, now⟩ with he
  refine ⟨?_, ?_, ?_, ?_, ?_⟩
  · rw [List.length_drop]
    simp only [List.length_append, List.length_cons, List.length_nil]
    omega
  · rw [List.length_drop]
    simp only [List.length_append, List.length_cons, List.length_nil]
    omega
  · exact List.drop_suffix _ _
  · rw [List.drop_append_eq_append_drop]
    have h2 : (history ++ [e]).length - 5 - history.length = 0 := by
      simp only [List.length_append, List.length_cons, List.length_nil]
      omega
    rw [h2, List.drop_zero]
    exact List.getLast?_concat _
  · intro h5
    have h1 : (history ++ [e]).length - 5 = 1 := by simp [h5]
    rw [h1, List.drop_append_eq_append_drop, List.drop_one]
    simp [h5]

/-- Witness for C7: a full five-entry history evicts its oldest entry. -/
theorem addToPasswordHistory_bounded_fifo_witness :
    (addToPasswordHistory [] ['s'] 9 ['p']
        [⟨['a'], 1⟩, ⟨['b'], 2⟩, ⟨['c'], 3⟩, ⟨['d'], 4⟩, ⟨['e'], 5⟩]).length ≤ 5 ∧
    (addToPasswordHistory [] ['s'] 9 ['p']
        [⟨['a'], 1⟩, ⟨['b'], 2⟩, ⟨['c'], 3⟩, ⟨['d'], 4⟩, ⟨['e'], 5⟩]).length
      = min ([⟨['a'], 1⟩, ⟨['b'], 2⟩, ⟨['c'], 3⟩, ⟨['d'], 4⟩,
          (⟨['e'], 5⟩ : PasswordHistoryEntry)].length + 1) 5 ∧
    addToPasswordHistory [] ['s'] 9 ['p']
        [⟨['a'], 1⟩, ⟨['b'], 2⟩, ⟨['c'], 3⟩, ⟨['d'], 4⟩, ⟨['e'], 5⟩]
      <:+ [⟨['a'], 1⟩, ⟨['b'], 2⟩, ⟨['c'], 3⟩, ⟨['d'], 4⟩, ⟨['e'], 5⟩]
          ++ [⟨hashPassword [] ['s'] ['p'], 9⟩] ∧
    (addToPasswordHistory [] ['s'] 9 ['p']
        [⟨['a'], 1⟩, ⟨['b'], 2⟩, ⟨['c'], 3⟩, ⟨['d'], 4⟩, ⟨['e'], 5⟩]).getLast?
      = some ⟨hashPassword [] ['s'] ['p'], 9⟩ ∧
    ([⟨['a'], 1⟩, ⟨['b'], 2⟩, ⟨['c'], 3⟩, ⟨['d'], 4⟩,
        (⟨['e'], 5⟩ : PasswordHistoryEntry)].length = 5 →
      addToPasswordHistory [] ['s'] 9 ['p']
          [⟨['a'], 1⟩, ⟨['b'], 2⟩, ⟨['c'], 3⟩, ⟨['d'], 4⟩, ⟨['e'], 5⟩]
        = [⟨['a'], 1⟩, ⟨['b'], 2⟩, ⟨['c'], 3⟩, ⟨['d'], 4⟩,
            (⟨['e'], 5⟩ : PasswordHistoryEntry)].tail
          ++ [⟨hashPassword [] ['s'] ['p'], 9⟩]) :=
  addToPasswordHistory_bounded_fifo [] ['s'] 9 ['p']
    [⟨['a'], 1⟩, ⟨['b'], 2⟩, ⟨['c'], 3⟩, ⟨['d'], 4⟩, ⟨['e'], 5⟩]

/-- Claim C8: with any pepper and a well-formed 22-character salt, verifying
a password against its own peppered hash succeeds, and verifying it against
the hash of the password extended by `"x"` fails. -/
theorem verifyPassword_roundtrip (pepper salt password : List Char)
    (hsalt : salt.length = 22) :
    verifyPassword pepper password (hashPassword pepper salt password) = true ∧
    verifyPassword pepper password (hashPassword pepper salt (password ++ ['x']))
      = false := by
  unfold verifyPassword hashPassword
  rw [bcryptCompare_hash _ _ _ hsalt, bcryptCompare_hash _ _ _ hsalt]
  constructor
  · simp
  · simp only [beq_eq_false_iff_ne]
    intro heq
    have hlen := congrArg List.length heq
    simp [List.length_append] at hlen

/-- Witness for C8 at a concrete pepper, salt and password. -/
theorem verifyPassword_roundtrip_witness :
    verifyPassword ['q'] ['p']
        (hashPassword ['q'] (List.replicate 22 's') ['p']) = true ∧
    verifyPassword ['q'] ['p']
        (hashPassword ['q'] (List.replicate 22 's') (['p'] ++ ['x'])) = false :=
  verifyPassword_roundtrip ['q'] (List.replicate 22 's') ['p'] (by decide)

/-- Claim C9: whenever the underlying comparison primitive raises an error —
for instance on a malformed digest — `verifyPassword` reports `false` rather
than propagating the error (and, being a total function into `Bool`, it can
never throw). -/
theorem verifyPassword_error_returns_false (pepper password digest : List Char)
    (e : String) (herr : bcryptCompare (password ++ pepper) digest = .error e) :
    verifyPassword pepper password digest = false := by
  unfold verifyPassword
  rw [herr]

/-- Witness for C9: the empty digest is malformed and verification returns
`false` on it. -/
theorem verifyPassword_error_returns_false_witness :
    verifyPassword ['q'] ['p'] [] = false :=
  verifyPassword_error_returns_false ['q'] ['p'] [] "Not a valid BCrypt hash." rfl

/-- Claim C10: the employee-login handler's outcome does not depend on the
account's lockout state, it never persists a lockout record, a failed
verification yields the generic 401, and no lockout response is ever
produced — so repeated failed employee logins leave the stored lockout
fields untouched and never lock the account. -/
theorem employeeLoginHandler_ignores_lockout (passwordHash : List Char)
    (li li' : AccountLockoutInfo) (v : Bool) :
    employeeLoginHandler (some ⟨passwordHash, li⟩) v
      = employeeLoginHandler (some ⟨passwordHash, li'⟩) v ∧
    (employeeLoginHandler (some ⟨passwordHash, li⟩) v).lockoutWrite = none ∧
    (v = false →
      (employeeLoginHandler (some ⟨passwordHash, li⟩) v).response
        = .invalidCredentials) ∧
    (∀ m, (employeeLoginHandler (some ⟨passwordHash, li⟩) v).response
        ≠ .locked m) := by
  cases v <;> simp [employeeLoginHandler]

/-- Witness for C10: a concrete locked account and a failed verification. -/
theorem employeeLoginHandler_ignores_lockout_witness :
    employeeLoginHandler (some ⟨['p'], ⟨5, some 1000000, 0⟩⟩) false
      = employeeLoginHandler (some ⟨['p'], ⟨0, none, 0⟩⟩) false ∧
    (employeeLoginHandler (some ⟨['p'], ⟨5, some 1000000, 0⟩⟩) false).lockoutWrite
      = none ∧
    (false = false →
      (employeeLoginHandler (some ⟨['p'], ⟨5, some 1000000, 0⟩⟩) false).response
        = .invalidCredentials) ∧
    (∀ m, (employeeLoginHandler (some ⟨['p'], ⟨5, some 1000000, 0⟩⟩) false).response
        ≠ .locked m) :=
  employeeLoginHandler_ignores_lockout ['p'] ⟨5, some 1000000, 0⟩ ⟨0, none, 0⟩ false
